import Mathlib

/-!
Shallow embedding of two parts of the datadog-agent sources:

* the eBPF exec hook-point catalog (`ExecTables`, `ExecHookPoints`) from the
  security probe package, together with the capability model of the spec;
* the NTP check (`ntpConfig.parse`, `NTPCheck.queryOffset`) from the net
  check package.

Go machine values are embedded as follows: Go `int` becomes `Int`, Go
`string` becomes `String`, Go slices become `List`, a Go slice that can be
`nil` (where nil-ness is observable) becomes `Option (List _)`, Go `float64`
values (the NTP clock offsets) are idealised as `ℚ` with exact arithmetic,
and fallible Go functions return `Except String _`.
-/

/-- Capability set attached to an event type.  Modelled from the spec: the
`Capabilities` type itself is not under src/ (only the catalog using it is);
the spec describes a capability as an opaque named permission token and a
capability set as a set of such tokens, so a capability set is a list of
token names (the catalog only ever builds the empty set `Capabilities{}`). -/
abbrev Capabilities := List String

/-- Embedding of `eprobe.KProbe` as used by the catalog: one candidate
attachment, carrying an entry section name and/or an exit section name,
each defaulting to the empty string (Go zero value). -/
structure KProbe where
  EntryFunc : String := ""
  ExitFunc : String := ""
deriving DecidableEq, Inhabited, Repr

/-- Shared eBPF table.  Modelled from the spec: the `KTable` type is not
under src/ (only the empty list `ExecTables` of them is); the spec gives a
Table the attributes name, key layout, value layout and max entries. -/
structure KTable where
  Name : String
  KeyLayout : String := ""
  ValueLayout : String := ""
  MaxEntries : Nat := 0
deriving DecidableEq, Inhabited, Repr

/-- Hook point record.  Modelled from the spec: the `HookPoint` type is not
under src/ (only the catalog constructing it is); the spec's declaration
format gives the fields name, probes, event types (name to capability set),
tables, and the optional flag.  Field names follow the Go composite
literals in the catalog; fields the catalog never sets keep their Go zero
values as defaults. -/
structure HookPoint where
  Name : String
  KProbes : List KProbe := []
  EventTypes : List (String × Capabilities) := []
  Tables : List String := []
  Optional : Bool := false
deriving DecidableEq, Inhabited, Repr

/-- Modelled from the spec: `getSyscallFnName` is not under src/ (only its
call sites in the catalog are).  The spec's concrete scenario names the
resolved probe symbols by the bare syscall names themselves (entry probe on
symbol `execve`, entry probe on symbol `execveat`), so the resolution is the
identity on the syscall name. -/
def getSyscallFnName (name : String) : String :=
  name

/-- ExecTables - eBPF tables used by open's kProbes. -/
def ExecTables : List KTable := []

/-- ExecHookPoints - list of open's hooks (straight from the catalog in the
source: four hook points, composite literals in declaration order). -/
def ExecHookPoints : List HookPoint := [
  { Name := "sys_execve",
    KProbes := [{ EntryFunc := "kprobe/" ++ getSyscallFnName ("execve") }],
    EventTypes := [("*", [])] },
  { Name := "sys_execveat",
    KProbes := [{ EntryFunc := "kprobe/" ++ getSyscallFnName ("execveat") }],
    EventTypes := [("*", [])],
    Optional := true },
  { Name := "do_fork",
    KProbes := [{ ExitFunc := "kretprobe/_do_fork" },
                { ExitFunc := "kretprobe/do_fork" }],
    EventTypes := [("*", [])] },
  { Name := "do_exit",
    KProbes := [{ ExitFunc := "kprobe/do_exit" }],
    EventTypes := [("*", [])] }
]

/-- A probe is entry-kind when its entry section is set (non-empty). -/
def KProbe.isEntryKind (p : KProbe) : Bool :=
  p.EntryFunc ≠ ""

/-- A probe is exit-kind when its exit section is set (non-empty). -/
def KProbe.isExitKind (p : KProbe) : Bool :=
  p.ExitFunc ≠ ""

/-- The section-name convention of the catalog: a kretprobe section starts
with the `kretprobe/` section prefix (as both `do_fork` candidates do). -/
def KProbe.exitIsKretprobeSection (p : KProbe) : Bool :=
  List.isPrefixOf ("kretprobe/").data p.ExitFunc.data

/-- Modelled from the spec: `requiredCapabilities(hookPoint, eventType)`
returns the declared capability set, wildcard entries applying to every
event type the hook point can emit. -/
def requiredCapabilities (hp : HookPoint) (eventType : String) : Capabilities :=
  match hp.EventTypes.lookup eventType with
  | some caps => caps
  | none => ((hp.EventTypes.lookup ("*")).getD [])

/-- Modelled from the spec: `consumerSatisfies(consumerCapabilities,
required)` is true iff `required` is a subset of `consumerCapabilities`. -/
def consumerSatisfies (consumer required : Capabilities) : Bool :=
  required.all (fun c => consumer.contains c)

/-- C1: the sample catalog `ExecHookPoints` declares exactly four hook
points in order `sys_execve` (mandatory, one entry probe on the syscall
function name for execve), `sys_execveat` (optional, one entry probe on the
syscall function name for execveat), `do_fork` (mandatory) and `do_exit`
(mandatory), and no other hook point. -/
theorem execHookPoints_catalog_shape :
    ExecHookPoints.length = 4
    ∧ ExecHookPoints.map HookPoint.Name = ["sys_execve", "sys_execveat", "do_fork", "do_exit"]
    ∧ ExecHookPoints.map HookPoint.Optional = [false, true, false, false]
    ∧ (ExecHookPoints.getD 0 default).KProbes
        = [{ EntryFunc := "kprobe/" ++ getSyscallFnName ("execve"), ExitFunc := "" }]
    ∧ (ExecHookPoints.getD 1 default).KProbes
        = [{ EntryFunc := "kprobe/" ++ getSyscallFnName ("execveat"), ExitFunc := "" }]
    ∧ ((ExecHookPoints.getD 0 default).KProbes.all KProbe.isEntryKind) = true
    ∧ ((ExecHookPoints.getD 1 default).KProbes.all KProbe.isEntryKind) = true := by
  refine ⟨rfl, rfl, rfl, rfl, rfl, ?_, ?_⟩ <;> decide

/-- C2: the `do_fork` hook point lists exactly two candidate probes, both
exit-kind, the candidate for symbol `_do_fork` first and the candidate for
symbol `do_fork` second. -/
theorem doFork_two_exit_candidates_ordered :
    (ExecHookPoints.getD 2 default).Name = "do_fork"
    ∧ (ExecHookPoints.getD 2 default).KProbes.length = 2
    ∧ (ExecHookPoints.getD 2 default).KProbes.map KProbe.ExitFunc
        = ["kretprobe/_do_fork", "kretprobe/do_fork"]
    ∧ (ExecHookPoints.getD 2 default).KProbes.map KProbe.EntryFunc = ["", ""]
    ∧ ((ExecHookPoints.getD 2 default).KProbes.all KProbe.isExitKind) = true := by
  refine ⟨rfl, rfl, rfl, rfl, ?_⟩
  decide

/-- C3 counterexample: the single `do_exit` probe is declared through the
exit slot, but its section name is `kprobe/do_exit` — it does not carry the
`kretprobe/` section prefix that the catalog's genuine kretprobes (the
`do_fork` candidates) carry, so it is not a kretprobe as the claim states. -/
theorem doExit_probe_not_kretprobe_section :
    (ExecHookPoints.getD 3 default).Name = "do_exit"
    ∧ (ExecHookPoints.getD 3 default).KProbes.map KProbe.ExitFunc = ["kprobe/do_exit"]
    ∧ ((ExecHookPoints.getD 3 default).KProbes.all KProbe.exitIsKretprobeSection) = false
    ∧ ((ExecHookPoints.getD 2 default).KProbes.all KProbe.exitIsKretprobeSection) = true := by
  refine ⟨rfl, rfl, ?_, ?_⟩ <;> decide

/-- C3 (amended): the `do_exit` hook point declares a single probe, carried
in the exit slot (its exit section set, its entry section empty) and
targeting kernel symbol `do_exit`, but the section is `kprobe/do_exit`
(an entry kprobe section), not a kretprobe section. -/
theorem doExit_single_exit_slot_kprobe_section :
    (ExecHookPoints.getD 3 default).Name = "do_exit"
    ∧ (ExecHookPoints.getD 3 default).KProbes
        = [{ EntryFunc := "", ExitFunc := "kprobe/do_exit" }]
    ∧ ((ExecHookPoints.getD 3 default).KProbes.all KProbe.isExitKind) = true
    ∧ ((ExecHookPoints.getD 3 default).KProbes.all KProbe.exitIsKretprobeSection) = false := by
  refine ⟨rfl, rfl, ?_, ?_⟩ <;> decide

/-- C4: every hook point in the sample catalog has the single wildcard
event-type entry with the empty required capability set, and therefore
every consumer capability set satisfies the required set of every event
type these hook points can emit. -/
theorem execHookPoints_open_to_all_consumers (hp : HookPoint)
    (hmem : hp ∈ ExecHookPoints) :
    hp.EventTypes = [("*", [])]
    ∧ ∀ (consumer : Capabilities) (eventType : String),
        consumerSatisfies consumer (requiredCapabilities hp eventType) = true := by
  have hev : hp.EventTypes = [("*", [])] := by
    fin_cases hmem <;> rfl
  refine ⟨hev, fun consumer eventType => ?_⟩
  have hreq : requiredCapabilities hp eventType = [] := by
    unfold requiredCapabilities
    rw [hev]
    cases h : (eventType == "*") with
    | true => simp [List.lookup, h]
    | false => simp [List.lookup, h]
  rw [hreq]
  rfl

/-- C4 witness: the first catalog hook point, the empty consumer capability
set and the event type `exec`. -/
theorem execHookPoints_open_to_all_consumers_witness :
    (ExecHookPoints.getD 0 default).EventTypes = [("*", [])]
    ∧ consumerSatisfies []
        (requiredCapabilities (ExecHookPoints.getD 0 default) ("exec")) = true := by
  have h := execHookPoints_open_to_all_consumers (ExecHookPoints.getD 0 default) (by decide)
  exact ⟨h.1, h.2 [] ("exec")⟩

/-- C5: every hook point in the sample catalog has a non-empty probe
list. -/
theorem execHookPoints_probes_nonempty :
    (ExecHookPoints.all (fun hp => decide (0 < hp.KProbes.length))) = true := by
  decide

/-- C6: every probe specification in the sample catalog sets exactly one of
the entry and exit slots: it is entry-kind or exit-kind, never both and
never neither. -/
theorem execHookPoints_probes_one_kind :
    (ExecHookPoints.all (fun hp => hp.KProbes.all (fun p =>
      (p.isEntryKind && !p.isExitKind) || (!p.isEntryKind && p.isExitKind)))) = true := by
  decide

/-- C7: every table referenced by a hook point of the sample catalog exists
in the table registry; in the exec catalog this holds vacuously because no
hook point declares any table and `ExecTables` is empty. -/
theorem execHookPoints_tables_registered :
    ExecTables = []
    ∧ (ExecHookPoints.all (fun hp => hp.Tables.isEmpty)) = true
    ∧ (ExecHookPoints.all (fun hp => hp.Tables.all (fun t =>
        (ExecTables.map KTable.Name).contains t))) = true := by
  refine ⟨rfl, ?_, ?_⟩ <;> decide

/-! ## NTP check -/

/-- The per-instance configuration record of the ntp check, as decoded from
the instance YAML.  A Go field left unset by the YAML keeps its zero value;
the `Hosts` slice can be `nil` (absent), observable through the
`c.instance.Hosts == nil` test in `parse`, so it is an `Option`. -/
structure ntpInstanceConfig where
  OffsetThreshold : Int := 0
  Host : String := ""
  Hosts : Option (List String) := none
  Port : Int := 0
  Timeout : Int := 0
  Version : Int := 0
  UseLocalDefinedServers : Bool := false
deriving DecidableEq, Inhabited, Repr

/-- `awsNTPHosts` from the source. -/
def awsNTPHosts : List String := ["169.254.169.123"]

/-- `gcpNTPHosts` from the source. -/
def gcpNTPHosts : List String := ["metadata.google.internal"]

/-- `azureNTPHosts` from the source. -/
def azureNTPHosts : List String := ["time.windows.com"]

/-- `alibabaNTPHosts` from the source. -/
def alibabaNTPHosts : List String := [
  "ntp.cloud.aliyuncs.com", "ntp1.cloud.aliyuncs.com", "ntp2.cloud.aliyuncs.com",
  "ntp3.cloud.aliyuncs.com", "ntp4.cloud.aliyuncs.com", "ntp5.cloud.aliyuncs.com",
  "ntp6.cloud.aliyuncs.com", "ntp7.cloud.aliyuncs.com", "ntp8.cloud.aliyuncs.com",
  "ntp9.cloud.aliyuncs.com", "ntp10.cloud.aliyuncs.com", "ntp11.cloud.aliyuncs.com",
  "ntp12.cloud.aliyuncs.com"]

/-- `tencentNTPHosts` from the source. -/
def tencentNTPHosts : List String := ["ntpupdate.tencentyun.com"]

/-- `googleNTPHosts` from the source. -/
def googleNTPHosts : List String :=
  ["0.datadog.pool.ntp.org", "1.datadog.pool.ntp.org",
   "2.datadog.pool.ntp.org", "3.datadog.pool.ntp.org"]

/-- Which cloud-provider detections (`ec2.IsRunningOn()` and friends)
report true; the environment the agent runs in, passed explicitly. -/
structure CloudEnv where
  ec2 : Bool := false
  ecs : Bool := false
  gce : Bool := false
  azure : Bool := false
  alibaba : Bool := false
  tencent : Bool := false
deriving DecidableEq, Inhabited, Repr

/-- `getCloudProviderNTPHosts` from the source: the if/else-if chain over
the cloud-provider detections, defaulting to Datadog's NTP pool. -/
def getCloudProviderNTPHosts (env : CloudEnv) : List String :=
  if env.ec2 || env.ecs then awsNTPHosts
  else if env.gce then gcpNTPHosts
  else if env.azure then azureNTPHosts
  else if env.alibaba then alibabaNTPHosts
  else if env.tencent then tencentNTPHosts
  else googleNTPHosts

/-- The hosts-rewriting block of `ntpConfig.parse` (lines 117-128 of the
source): local servers win when present; otherwise a non-empty `Host` is
put first, followed by the configured `Hosts` entries that differ from it;
otherwise the record is untouched. -/
def parseHostsStep (data : ntpInstanceConfig) (localNtpServers : List String) :
    ntpInstanceConfig :=
  if 0 < localNtpServers.length then
    { data with Hosts := some localNtpServers }
  else if data.Host ≠ "" then
    let hosts := data.Host :: (data.Hosts.getD []).filter (fun h => h ≠ data.Host)
    { data with Hosts := some hosts }
  else data

/-- The defaulting block of `ntpConfig.parse` (lines 129-143 of the
source): nil Hosts become the cloud-provider defaults, and each zero
numeric field becomes its default (Port 123, Version 3, Timeout 5,
OffsetThreshold 60). -/
def parseDefaultsStep (c : ntpInstanceConfig) (defaultHosts : List String) :
    ntpInstanceConfig :=
  let c2 := if c.Hosts = none then { c with Hosts := some defaultHosts } else c
  let c3 := if c2.Port = 0 then { c2 with Port := 123 } else c2
  let c4 := if c3.Version = 0 then { c3 with Version := 3 } else c3
  let c5 := if c4.Timeout = 0 then { c4 with Timeout := 5 } else c4
  if c5.OffsetThreshold = 0 then { c5 with OffsetThreshold := 60 } else c5

/-- `ntpConfig.parse` from the source, after YAML decoding: the two
`yaml.Unmarshal` calls are embedded as the already-decoded `data` record
(`ntpInitConfig` is an empty struct and carries nothing), `getLocalServers`
as its result, and the cloud-provider detection as `env`.  The body mirrors
the source statement by statement: fetch local servers when asked
(propagating a failure), rewrite `Hosts`, then fill the defaults. -/
def ntpConfig.parse (data : ntpInstanceConfig)
    (getLocalServers : Except String (List String)) (env : CloudEnv) :
    Except String ntpInstanceConfig :=
  match (if data.UseLocalDefinedServers then getLocalServers else Except.ok []) with
  | Except.error e => Except.error e
  | Except.ok localNtpServers =>
    Except.ok (parseDefaultsStep (parseHostsStep data localNtpServers)
      (getCloudProviderNTPHosts env))

/-- The part of an `ntp.Response` that `queryOffset` consumes: whether
`response.Validate()` succeeds, and `response.ClockOffset.Seconds()` as an
exact rational. -/
structure NtpResponse where
  valid : Bool
  clockOffsetSeconds : ℚ
deriving DecidableEq, Inhabited, Repr

/-- The host loop of `NTPCheck.queryOffset`: walks the configured hosts,
querying each; a query error bumps (or, past 10, resets) `errCount` and
skips the host; a successful query resets `errCount` to 0, then the offset
is collected only when the response validates.  Returns the collected
offsets in host order together with the final `errCount`. -/
def collectOffsets : List String → (String → Option NtpResponse) → Nat → List ℚ × Nat
  | [], _, errCount => ([], errCount)
  | host :: rest, query, errCount =>
    match query host with
    | none =>
      if 10 ≤ errCount then collectOffsets rest query 0
      else collectOffsets rest query (errCount + 1)
    | some response =>
      if response.valid then
        let r := collectOffsets rest query 0
        (response.clockOffsetSeconds :: r.1, r.2)
      else
        collectOffsets rest query 0

/-- `NTPCheck.queryOffset` from the source, embedded over the query
function (`ntpQuery` composed with `Validate`, given as `query`) and the
check's `errCount` field passed and returned explicitly.  With no offsets
collected it returns the error; otherwise the median of the sorted offsets:
the middle element for an odd count, the mean of the two middle elements
for an even count. -/
def NTPCheck.queryOffset (hosts : List String) (query : String → Option NtpResponse)
    (errCount : Nat) : Except String ℚ × Nat :=
  let r := collectOffsets hosts query errCount
  let offsets := r.1
  if offsets.length = 0 then
    (Except.error "Failed to get clock offset from any ntp host", r.2)
  else
    let sorted := List.insertionSort (fun a b => a ≤ b) offsets
    let length := sorted.length
    let median :=
      if length % 2 = 0 then
        (sorted.getD (length / 2 - 1) 0 + sorted.getD (length / 2) 0) / 2
      else
        sorted.getD (length / 2) 0
    (Except.ok median, r.2)

/-- The offsets of the hosts whose query succeeds and whose response passes
validation, in host order (the spec-side characterisation of what the
`queryOffset` loop collects). -/
def validOffsets (hosts : List String) (query : String → Option NtpResponse) : List ℚ :=
  hosts.filterMap (fun host =>
    match query host with
    | none => none
    | some response =>
      if response.valid then some response.clockOffsetSeconds else none)

/-- Median as the claim words it: after sorting, the middle element when
the count is odd, the arithmetic mean of the two middle elements when the
count is even. -/
def medianOf (l : List ℚ) : ℚ :=
  let s := List.insertionSort (fun a b => a ≤ b) l
  if s.length % 2 = 0 then
    (s.getD (s.length / 2 - 1) 0 + s.getD (s.length / 2) 0) / 2
  else
    s.getD (s.length / 2) 0

/-- The offsets collected by the `queryOffset` host loop are exactly the
valid offsets, whatever the incoming `errCount` (the error counter only
steers logging, never which offsets are kept). -/
theorem collectOffsets_fst (hosts : List String) (query : String → Option NtpResponse)
    (errCount : Nat) : (collectOffsets hosts query errCount).1 = validOffsets hosts query := by
  induction hosts generalizing errCount with
  | nil => rfl
  | cons host rest ih =>
    unfold collectOffsets validOffsets
    cases h : query host with
    | none =>
      simp only [h]
      split
      · rw [ih]; simp [validOffsets, List.filterMap, h]
      · rw [ih]; simp [validOffsets, List.filterMap, h]
    | some response =>
      simp only [h]
      by_cases hv : response.valid
      · simp [hv, ih, validOffsets, List.filterMap, h]
      · simp [hv, ih, validOffsets, List.filterMap, h]

/-- C8: `NTPCheck.queryOffset` returns an error exactly when no configured
host yields a response that both queries successfully and passes
validation; otherwise it returns the median of the collected per-host
clock offsets — after sorting, the middle element for an odd count, the
mean of the two middle elements for an even count. -/
theorem queryOffset_error_iff_no_valid_host (hosts : List String)
    (query : String → Option NtpResponse) (errCount : Nat) :
    (NTPCheck.queryOffset hosts query errCount).1 =
      if validOffsets hosts query = [] then
        Except.error "Failed to get clock offset from any ntp host"
      else
        Except.ok (medianOf (validOffsets hosts query)) := by
  simp only [NTPCheck.queryOffset, collectOffsets_fst, medianOf]
  by_cases h : validOffsets hosts query = []
  · simp [h]
  · have hlen : ¬((validOffsets hosts query).length = 0) := by
      simpa [List.length_eq_zero] using h
    simp [h, hlen]

/-- The hosts-rewriting step never touches Port. -/
theorem parseHostsStep_Port (data : ntpInstanceConfig) (l : List String) :
    (parseHostsStep data l).Port = data.Port := by
  unfold parseHostsStep
  split_ifs <;> rfl

/-- The hosts-rewriting step never touches Version. -/
theorem parseHostsStep_Version (data : ntpInstanceConfig) (l : List String) :
    (parseHostsStep data l).Version = data.Version := by
  unfold parseHostsStep
  split_ifs <;> rfl

/-- The hosts-rewriting step never touches Timeout. -/
theorem parseHostsStep_Timeout (data : ntpInstanceConfig) (l : List String) :
    (parseHostsStep data l).Timeout = data.Timeout := by
  unfold parseHostsStep
  split_ifs <;> rfl

/-- The hosts-rewriting step never touches OffsetThreshold. -/
theorem parseHostsStep_OffsetThreshold (data : ntpInstanceConfig) (l : List String) :
    (parseHostsStep data l).OffsetThreshold = data.OffsetThreshold := by
  unfold parseHostsStep
  split_ifs <;> rfl

/-- With no local servers and an empty Host, the hosts-rewriting step is
the identity. -/
theorem parseHostsStep_id_of_no_hosts (data : ntpInstanceConfig)
    (hhost : data.Host = "") : parseHostsStep data [] = data := by
  unfold parseHostsStep
  simp [hhost]

/-- With no local servers and a non-empty Host, the hosts-rewriting step
puts Host first, followed by the configured entries that differ from it. -/
theorem parseHostsStep_hosts_of_empty_local (data : ntpInstanceConfig)
    (hhost : data.Host ≠ "") :
    (parseHostsStep data []).Hosts
      = some (data.Host :: (data.Hosts.getD []).filter (fun h => h ≠ data.Host)) := by
  unfold parseHostsStep
  simp [hhost]

/-- Port after the defaulting step. -/
theorem parseDefaultsStep_Port (c : ntpInstanceConfig) (d : List String) :
    (parseDefaultsStep c d).Port = if c.Port = 0 then 123 else c.Port := by
  simp [parseDefaultsStep, apply_ite ntpInstanceConfig.Port]

/-- Version after the defaulting step. -/
theorem parseDefaultsStep_Version (c : ntpInstanceConfig) (d : List String) :
    (parseDefaultsStep c d).Version = if c.Version = 0 then 3 else c.Version := by
  simp [parseDefaultsStep, apply_ite ntpInstanceConfig.Version]

/-- Timeout after the defaulting step. -/
theorem parseDefaultsStep_Timeout (c : ntpInstanceConfig) (d : List String) :
    (parseDefaultsStep c d).Timeout = if c.Timeout = 0 then 5 else c.Timeout := by
  simp [parseDefaultsStep, apply_ite ntpInstanceConfig.Timeout]

/-- OffsetThreshold after the defaulting step. -/
theorem parseDefaultsStep_OffsetThreshold (c : ntpInstanceConfig) (d : List String) :
    (parseDefaultsStep c d).OffsetThreshold
      = if c.OffsetThreshold = 0 then 60 else c.OffsetThreshold := by
  simp [parseDefaultsStep, apply_ite ntpInstanceConfig.OffsetThreshold]

/-- Hosts after the defaulting step: the defaults replace only a nil
Hosts. -/
theorem parseDefaultsStep_Hosts (c : ntpInstanceConfig) (d : List String) :
    (parseDefaultsStep c d).Hosts = if c.Hosts = none then some d else c.Hosts := by
  simp [parseDefaultsStep, apply_ite ntpInstanceConfig.Hosts]

/-- C9: after a successful `ntpConfig.parse`, every numeric field the
input left at zero carries its default (Port 123, Version 3, Timeout 5,
OffsetThreshold 60), and with no hosts configured at all (no local servers
used, empty Host, absent Hosts) the Hosts list is the cloud-provider
default host list. -/
theorem parse_fills_defaults (data : ntpInstanceConfig)
    (getLocalServers : Except String (List String)) (env : CloudEnv)
    (out : ntpInstanceConfig)
    (hok : ntpConfig.parse data getLocalServers env = Except.ok out) :
    (data.Port = 0 → out.Port = 123)
    ∧ (data.Version = 0 → out.Version = 3)
    ∧ (data.Timeout = 0 → out.Timeout = 5)
    ∧ (data.OffsetThreshold = 0 → out.OffsetThreshold = 60)
    ∧ ((data.UseLocalDefinedServers = false ∨ getLocalServers = Except.ok [])
        → data.Host = "" → data.Hosts = none
        → out.Hosts = some (getCloudProviderNTPHosts env)) := by
  unfold ntpConfig.parse at hok
  split at hok
  · exact absurd hok (by simp)
  case _ localNtpServers heq =>
    simp only [Except.ok.injEq] at hok
    subst hok
    refine ⟨?_, ?_, ?_, ?_, ?_⟩
    · intro h0
      rw [parseDefaultsStep_Port, parseHostsStep_Port, h0]
      simp
    · intro h0
      rw [parseDefaultsStep_Version, parseHostsStep_Version, h0]
      simp
    · intro h0
      rw [parseDefaultsStep_Timeout, parseHostsStep_Timeout, h0]
      simp
    · intro h0
      rw [parseDefaultsStep_OffsetThreshold, parseHostsStep_OffsetThreshold, h0]
      simp
    · intro hlocal hhost hnil
      have hempty : localNtpServers = [] := by
        rcases hlocal with huse | hloc
        · rw [huse] at heq
          exact (Except.ok.injEq _ _).mp heq |>.symm
        · rw [hloc] at heq
          split at heq <;>
            exact ((Except.ok.injEq _ _).mp heq).symm
      subst hempty
      rw [parseDefaultsStep_Hosts, parseHostsStep_id_of_no_hosts data hhost, hnil]
      simp

/-- C9 witness output: parsing the all-defaults instance record with no
local servers and no detected cloud provider. -/
def ntpDefaultsOut : ntpInstanceConfig :=
  { Port := 123, Version := 3, Timeout := 5, OffsetThreshold := 60,
    Hosts := some googleNTPHosts }

/-- C9 witness: the all-zero instance record parses to the all-defaults
record, with the Datadog pool as Hosts. -/
theorem parse_fills_defaults_witness :
    (ntpConfig.parse {} (Except.ok []) {} = Except.ok ntpDefaultsOut)
    ∧ ntpDefaultsOut.Port = 123 ∧ ntpDefaultsOut.Version = 3
    ∧ ntpDefaultsOut.Timeout = 5 ∧ ntpDefaultsOut.OffsetThreshold = 60
    ∧ ntpDefaultsOut.Hosts = some (getCloudProviderNTPHosts {}) := by
  have hok : ntpConfig.parse {} (Except.ok []) {} = Except.ok ntpDefaultsOut := by rfl
  have h := parse_fills_defaults {} (Except.ok []) {} ntpDefaultsOut hok
  exact ⟨hok, h.1 rfl, h.2.1 rfl, h.2.2.1 rfl, h.2.2.2.1 rfl,
    h.2.2.2.2 (Or.inl rfl) rfl rfl⟩

/-- C10: with no local servers in play and a non-empty Host, the parsed
Hosts list is Host followed by the originally configured Hosts entries in
order with every entry equal to Host removed, so Host appears exactly once,
at the front (duplicates among the other entries are kept). -/
theorem parse_host_first_no_self_duplicate (data : ntpInstanceConfig)
    (getLocalServers : Except String (List String)) (env : CloudEnv)
    (out : ntpInstanceConfig)
    (hlocal : data.UseLocalDefinedServers = false ∨ getLocalServers = Except.ok [])
    (hhost : data.Host ≠ "")
    (hok : ntpConfig.parse data getLocalServers env = Except.ok out) :
    out.Hosts = some (data.Host :: (data.Hosts.getD []).filter (fun h => h ≠ data.Host))
    ∧ (out.Hosts.getD []).count data.Host = 1 := by
  unfold ntpConfig.parse at hok
  split at hok
  · exact absurd hok (by simp)
  case _ localNtpServers heq =>
    have hempty : localNtpServers = [] := by
      rcases hlocal with huse | hloc
      · rw [huse] at heq
        exact (Except.ok.injEq _ _).mp heq |>.symm
      · rw [hloc] at heq
        split at heq <;>
          exact ((Except.ok.injEq _ _).mp heq).symm
    subst hempty
    simp only [Except.ok.injEq] at hok
    subst hok
    have hmain : (parseDefaultsStep (parseHostsStep data [])
        (getCloudProviderNTPHosts env)).Hosts
        = some (data.Host :: (data.Hosts.getD []).filter (fun h => h ≠ data.Host)) := by
      rw [parseDefaultsStep_Hosts, parseHostsStep_hosts_of_empty_local data hhost]
      simp
    refine ⟨hmain, ?_⟩
    rw [hmain]
    have hcount : ((data.Hosts.getD []).filter
        (fun h => h ≠ data.Host)).count data.Host = 0 := by
      rw [List.count_eq_zero]
      intro hmem
      have := List.of_mem_filter hmem
      simp at this
    simpa [List.count_cons] using hcount

/-- C10 witness input: Host `a` together with Hosts `[b, a, b]`. -/
def ntpHostMergeIn : ntpInstanceConfig :=
  { Host := "a", Hosts := some ["b", "a", "b"] }

/-- C10 witness output of parsing: `a` first, the duplicate `a` removed,
the duplicate `b` kept. -/
def ntpHostMergeOut : ntpInstanceConfig :=
  { Host := "a", Hosts := some ["a", "b", "b"],
    Port := 123, Version := 3, Timeout := 5, OffsetThreshold := 60 }

/-- C10 witness: parsing Host `a` with Hosts `[b, a, b]` puts `a` once at
the front and keeps the duplicated `b` entries. -/
theorem parse_host_first_no_self_duplicate_witness :
    (ntpConfig.parse ntpHostMergeIn (Except.ok []) {} = Except.ok ntpHostMergeOut)
    ∧ ntpHostMergeOut.Hosts
        = some (ntpHostMergeIn.Host ::
            (ntpHostMergeIn.Hosts.getD []).filter (fun h => h ≠ ntpHostMergeIn.Host))
    ∧ (ntpHostMergeOut.Hosts.getD []).count ntpHostMergeIn.Host = 1 := by
  have hok : ntpConfig.parse ntpHostMergeIn (Except.ok []) {} = Except.ok ntpHostMergeOut := by
    rfl
  have h := parse_host_first_no_self_duplicate ntpHostMergeIn (Except.ok []) {}
    ntpHostMergeOut (Or.inl rfl) (by decide) hok
  exact ⟨hok, h.1, h.2⟩
